import Mathlib

/-!
Shallow embedding of the `llm_fastapi` repository (two Python source files:
`main.py`, the FastAPI "Classification Service", and `categorize_data.py`,
the "Batch Annotator") together with proofs settling the frozen claims
about its specification.

Modelling conventions:
* JSON values are the inductive `Json` below.  JSON numbers are modelled as
  integers; float-specific behaviour (rounding, repr formatting) is outside
  the model.  None of the claims below depends on non-integral numerics:
  they concern presence/absence of range checks and structural behaviour,
  which are identical for integral inputs.
* Python `dict`s (as produced by `json.load`) are association lists with
  unique keys, in insertion order; `pyLookup` is `d[k]` / `d.get(k)`.
* External collaborators (the HTTP transport, `json.load`'s text-level
  parser, the LLM provider) are oracles passed in as explicit arguments:
  e.g. the body of an HTTP response is an `Option Json` (`none` models a
  body that is not valid JSON, making `response.json()` raise).
* Uncaught Python exceptions are modelled by `Except` error results that
  propagate through `do`-notation exactly as exceptions propagate past
  `try` blocks that do not catch them.
-/

/-- A JSON value.  Object members keep insertion order, as Python dicts do. -/
inductive Json where
  | null
  | bool (b : Bool)
  | num (n : Int)
  | str (s : String)
  | arr (elems : List Json)
  | obj (members : List (String × Json))

/-- Python dict lookup `d[k]` / `d.get(k)` on an association list.
`json.load` produces dicts with unique keys, so first-match lookup agrees
with Python semantics on every value this development manipulates. -/
def pyLookup (k : String) : List (String × Json) → Option Json
  | [] => none
  | (k2, v) :: rest => if k2 = k then some v else pyLookup k rest

/-- Python dict update `d[k] = v` (and the effect of `{**d, k: v}`):
if `k` is already a key its value is replaced in place (insertion order
kept — keys are unique, so replacing the first occurrence is replacing the
occurrence), otherwise the pair is appended at the end. -/
def dictSet : List (String × Json) → String → Json → List (String × Json)
  | [], k, v => [(k, v)]
  | (k2, v2) :: rest, k, v =>
      if k2 = k then (k, v) :: rest else (k2, v2) :: dictSet rest k v

/-- Python dict merge `{**ms, **info}`: fold the updates of `info` into
`ms` left to right. -/
def pyMergeObj (ms info : List (String × Json)) : List (String × Json) :=
  info.foldl (fun acc p => dictSet acc p.1 p.2) ms

/-- Field access on a JSON value: `some` value for a member of an object,
`none` otherwise. -/
def jsonGet (k : String) : Json → Option Json
  | .obj ms => pyLookup k ms
  | _ => none

/-- Lower-case hexadecimal digit, as Python's `json` encoder emits. -/
def hexDigit (n : Nat) : Char :=
  if n < 10 then Char.ofNat (48 + n) else Char.ofNat (87 + n)

/-- Escaping of one character inside a JSON string literal, following
Python's `json` encoder with `ensure_ascii=False`: only `"`, `\` and
control characters below 0x20 are escaped; every other character — in
particular every non-ASCII character — is emitted literally. -/
def escapeChar (c : Char) : String :=
  if c = '"' then "\\\""
  else if c = '\\' then "\\\\"
  else if c = '\n' then "\\n"
  else if c = '\t' then "\\t"
  else if c = '\r' then "\\r"
  else if c.toNat = 8 then "\\b"
  else if c.toNat = 12 then "\\f"
  else if c.toNat < 32 then
    "\\u00" ++ String.mk [hexDigit (c.toNat / 16), hexDigit (c.toNat % 16)]
  else String.mk [c]

/-- Body of a JSON string literal. -/
def escapeString (s : String) : String :=
  String.join (s.data.map escapeChar)

/-- A JSON string literal: `"` + escaped body + `"`. -/
def quoteStr (s : String) : String :=
  "\"" ++ escapeString s ++ "\""

/-- `4 * level` spaces, the indentation `json.dump(..., indent=4)` puts in
front of a nesting level. -/
def pyIndent (level : Nat) : String :=
  String.mk (List.replicate (4 * level) ' ')

mutual

/-- Python `json.dump(v, f, indent=4, ensure_ascii=False)`: pretty-printed
serialization with 4-space indentation, separators `(",", ": ")`, and
non-ASCII characters preserved literally. -/
def dumpVal : Json → Nat → String
  | .null, _ => "null"
  | .bool true, _ => "true"
  | .bool false, _ => "false"
  | .num n, _ => toString n
  | .str s, _ => quoteStr s
  | .arr [], _ => "[]"
  | .arr (x :: xs), lv =>
      "[\n" ++ pyIndent (lv + 1) ++ dumpVal x (lv + 1) ++ dumpElems xs (lv + 1)
        ++ "\n" ++ pyIndent lv ++ "]"
  | .obj [], _ => "\x7b\x7d"
  | .obj ((k, v) :: ms), lv =>
      "\x7b\n" ++ pyIndent (lv + 1) ++ quoteStr k ++ ": " ++ dumpVal v (lv + 1)
        ++ dumpMembers ms (lv + 1) ++ "\n" ++ pyIndent lv ++ "\x7d"

/-- Remaining array elements, each on its own indented line. -/
def dumpElems : List Json → Nat → String
  | [], _ => ""
  | x :: xs, lv => ",\n" ++ pyIndent lv ++ dumpVal x lv ++ dumpElems xs lv

/-- Remaining object members, each on its own indented line. -/
def dumpMembers : List (String × Json) → Nat → String
  | [], _ => ""
  | (k, v) :: ms, lv =>
      ",\n" ++ pyIndent lv ++ quoteStr k ++ ": " ++ dumpVal v lv ++ dumpMembers ms lv

end

mutual

/-- Python `json.dumps(v, ensure_ascii=False)` (no `indent` argument):
compact single-line serialization with default separators `(", ", ": ")`
and non-ASCII characters preserved literally. -/
def dumpsCompact : Json → String
  | .null => "null"
  | .bool true => "true"
  | .bool false => "false"
  | .num n => toString n
  | .str s => quoteStr s
  | .arr [] => "[]"
  | .arr (x :: xs) => "[" ++ dumpsCompact x ++ dumpsCompactElems xs ++ "]"
  | .obj [] => "\x7b\x7d"
  | .obj ((k, v) :: ms) =>
      "\x7b" ++ quoteStr k ++ ": " ++ dumpsCompact v ++ dumpsCompactMembers ms ++ "\x7d"

/-- Remaining array elements of a compact serialization. -/
def dumpsCompactElems : List Json → String
  | [] => ""
  | x :: xs => ", " ++ dumpsCompact x ++ dumpsCompactElems xs

/-- Remaining object members of a compact serialization. -/
def dumpsCompactMembers : List (String × Json) → String
  | [] => ""
  | (k, v) :: ms => ", " ++ quoteStr k ++ ": " ++ dumpsCompact v ++ dumpsCompactMembers ms

end

/-- One operation on the open file handle of the Batch Annotator. -/
inductive FileOp where
  | seekStart
  | write (s : String)
  | truncate

/-- Effect of one file operation on (content, position), at character
granularity: `f.seek(0)` resets the position, `f.write(s)` overwrites
`s.length` characters starting at the position (extending the file if it
runs past the end), `f.truncate()` cuts the content at the position. -/
def applyFileOp : String × Nat → FileOp → String × Nat
  | (c, _), .seekStart => (c, 0)
  | (c, p), .write s =>
      (String.mk (c.data.take p ++ s.data ++ c.data.drop (p + s.length)),
       p + s.length)
  | (c, p), .truncate => (String.mk (c.data.take p), p)

/-- Run a sequence of file operations from an initial (content, position). -/
def runFileOps (st : String × Nat) (ops : List FileOp) : String × Nat :=
  ops.foldl applyFileOp st

/-- The contents written by a sequence of file operations. -/
def writesOf (ops : List FileOp) : List String :=
  ops.filterMap (fun op => match op with | .write s => some s | _ => none)

namespace Batch

/-!
Embedding of `categorize_data.py` (the Batch Annotator).
-/

/-- `CategoryOutput` of `categorize_data.py`: pydantic model with a string
`category` and a numeric `confidence`; neither field carries a range or
length constraint. -/
structure CategoryOutput where
  category : String
  confidence : Int

/-- An uncaught Python exception of the Batch Annotator: raised past the
`except` clauses in `categorize_event` / `process_and_update_events` and
aborting the run. -/
inductive Crash where
  | keyError (k : String)
  | typeError
  | validationError
  | attributeError

/-- Outcome of the one HTTP POST `categorize_event` makes: either the
transport raises `httpx.HTTPError` before a response arrives, or a response
with a status code and a body arrives (`none` body = text that is not valid
JSON, so `response.json()` raises). -/
inductive CallOutcome where
  | transportError
  | response (status : Nat) (body : Option Json)

/-- A line the Batch Annotator prints.  The two per-event lines correspond
to the `except httpx.HTTPError` and `except Exception` handlers of
`categorize_event`; the other three to the prints of
`process_and_update_events` and `main`. -/
inductive Msg where
  | httpError (title : String)
  | unexpectedError (title : String)
  | fileNotFound (path : String)
  | invalidJson (path : String)
  | success (path : String)

/-- Line 29 of `categorize_data.py`, which runs BEFORE the `try` block:
`CategoryInput(title=event_data['title'], description=event_data['description'])`.
Subscripting a non-dict raises `TypeError`; a missing key raises `KeyError`;
pydantic raises a validation error when a field value is not a string.
Any of these propagates out of `categorize_event` uncaught. -/
def mkCategoryInput (ev : Json) : Except Crash (String × String) :=
  match ev with
  | .obj ms =>
    match pyLookup "title" ms with
    | none => .error (.keyError "title")
    | some tv =>
      match pyLookup "description" ms with
      | none => .error (.keyError "description")
      | some dv =>
        match tv, dv with
        | .str t, .str d => .ok (t, d)
        | _, _ => .error .validationError
  | _ => .error .typeError

/-- `parse of CategoryOutput(**response.json())`: the body must be an
object whose `category` member is a string and whose `confidence` member is
a number; extra members are ignored (pydantic default).  `none` models the
constructor raising, which the `except Exception` clause catches. -/
def parseCategoryOutput (j : Json) : Option CategoryOutput :=
  match j with
  | .obj ms =>
    match pyLookup "category" ms, pyLookup "confidence" ms with
    | some (.str c), some (.num n) => some ⟨c, n⟩
    | _, _ => none
  | _ => none

/-- `categorize_event` of `categorize_data.py`: build the request (outside
the `try`), POST it, `raise_for_status()`, parse the body into
`CategoryOutput`, and return `{"category": ...}` — with the `confidence`
field discarded.  Transport errors and non-2xx statuses are caught by
`except httpx.HTTPError`; a non-JSON body or a shape mismatch by
`except Exception`; in every caught case a line naming the event's title
is printed and `None` is returned. -/
def categorize_event (ev : Json) (o : CallOutcome) :
    Except Crash (List Msg × Option (List (String × Json))) := do
  let (title, _description) ← mkCategoryInput ev
  match o with
  | .transportError => .ok ([.httpError title], none)
  | .response status body =>
    if 200 ≤ status ∧ status ≤ 299 then
      match body with
      | none => .ok ([.unexpectedError title], none)
      | some j =>
        match parseCategoryOutput j with
        | some out => .ok ([], some [("category", .str out.category)])
        | none => .ok ([.unexpectedError title], none)
    else
      .ok ([.httpError title], none)

/-- `updated_event = {**event, **category_info}` when categorization
succeeded, the original event otherwise (the non-object fallback is
unreachable: success implies the event was a dict). -/
def applyCategory (ev : Json) (info : Option (List (String × Json))) : Json :=
  match info, ev with
  | some inf, .obj fields => .obj (pyMergeObj fields inf)
  | _, _ => ev

/-- The `for event in events` loop of `process_and_update_events`,
processing events sequentially in order from index `i`; collects the
printed lines and the `updated_events` list.  A crash in
`categorize_event` propagates (no enclosing handler catches it). -/
def processEvents (outcomes : Nat → CallOutcome) :
    List Json → Nat → Except Crash (List Msg × List Json)
  | [], _ => .ok ([], [])
  | ev :: rest, i => do
    let (ms, info) ← categorize_event ev (outcomes i)
    let (msRest, outRest) ← processEvents outcomes rest (i + 1)
    .ok (ms ++ msRest, applyCategory ev info :: outRest)

/-- Python iteration `for event in v` over the value of the `events`
field: a list yields its elements, a string its characters, a dict its
keys; other values raise `TypeError`. -/
def pyIter (v : Json) : Except Crash (List Json) :=
  match v with
  | .arr xs => .ok xs
  | .str s => .ok (s.data.map fun c => Json.str (String.mk [c]))
  | .obj ms => .ok (ms.map fun p => Json.str p.1)
  | _ => .error .typeError

/-- `events = data.get("events", [])` followed by iteration: `data` must be
a dict (`.get` on anything else raises `AttributeError`); an absent
`events` field defaults to the empty list. -/
def pyGetEvents (doc : Json) : Except Crash (List Json) :=
  match doc with
  | .obj ms =>
    match pyLookup "events" ms with
    | none => .ok []
    | some v => pyIter v
  | _ => .error .attributeError

/-- `data["events"] = updated_events` (the non-object fallback is
unreachable: `pyGetEvents` already required a dict). -/
def pySetEvents (doc : Json) (updated : List Json) : Json :=
  match doc with
  | .obj ms => .obj (dictSet ms "events" (.arr updated))
  | _ => doc

/-- `process_and_update_events` of `categorize_data.py`.

Arguments model the external collaborators: `load` is `json.load`'s
text-level parser (`none` = `json.JSONDecodeError`), `outcomes` gives the
HTTP outcome of the categorize call for each event index, `fs` is the
file's state (`none` = absent, so `open` raises `FileNotFoundError`).

Returns the printed lines, the file's state after the run, and the trace
of operations performed on the open handle.  `FileNotFoundError` and
`json.JSONDecodeError` are caught (print + `return`, no write); any other
exception propagates as a `Crash`. -/
def process_and_update_events (load : String → Option Json)
    (outcomes : Nat → CallOutcome) (filepath : String) (fs : Option String) :
    Except Crash (List Msg × Option String × List FileOp) :=
  match fs with
  | none => .ok ([.fileNotFound filepath], none, [])
  | some raw =>
    match load raw with
    | none => .ok ([.invalidJson filepath], some raw, [])
    | some doc => do
      let evs ← pyGetEvents doc
      let (msgs, updated) ← processEvents outcomes evs 0
      let newDoc := pySetEvents doc updated
      let text := dumpVal newDoc 0
      let ops := [FileOp.seekStart, FileOp.write text, FileOp.truncate]
      .ok (msgs, some (runFileOps (raw, raw.length) ops).1, ops)

/-- The hard-coded `json_filepath` of `main`. -/
def dataJsonPath : String := "data.json"

/-- `main` of `categorize_data.py`: run `process_and_update_events` on
`data.json`, then print the success line naming the file.  The print is
unconditional whenever the awaited call returns (it also returns on its
two caught fatal errors); only an uncaught exception skips it. -/
def main (load : String → Option Json) (outcomes : Nat → CallOutcome)
    (fs : Option String) : Except Crash (List Msg × Option String × List FileOp) :=
  match process_and_update_events load outcomes dataJsonPath fs with
  | .ok (msgs, fs2, ops) => .ok (msgs ++ [.success dataJsonPath], fs2, ops)
  | .error c => .error c

end Batch

namespace Service

/-!
Embedding of `main.py` (the FastAPI Classification Service).

Each handler is `try: result = chain.invoke(...); return result
except Exception as e: raise HTTPException(status_code=500, detail=str(e))`.
The chain is prompt-template render → model call → parse; the model call
is the external collaborator, passed in as an `LlmOutcome` oracle.
-/

/-- `SentimentDetail` of `main.py`: `strength` is declared
`Field(ge=0, le=100)`, so pydantic validation enforces the range. -/
structure SentimentDetail where
  strength : Int
  detectedEmotions : List String

/-- `Sentiment` of `main.py`. -/
structure Sentiment where
  agitation : SentimentDetail
  neutral : SentimentDetail
  positive : SentimentDetail

/-- `SentimentInput` of `main.py`. -/
structure SentimentInput where
  title : String
  description : String
  last_news : String

/-- `NewEventInput` of `main.py`. -/
structure NewEventInput where
  news_content : String

/-- `NewEventOutput` of `main.py`. -/
structure NewEventOutput where
  title : String
  description : String

/-- `VerificationInput` of `main.py`: `event_info` is `Dict[str, Any]`
(an arbitrary JSON object), `authority_info` a plain string. -/
structure VerificationInput where
  event_info : List (String × Json)
  authority_info : String

/-- `VerificationOutput` of `main.py`: four plain string fields, none
enum-validated. -/
structure VerificationOutput where
  comparison : String
  correctness : String
  justification : String
  public_response : String

/-- `CategoryOutput` of `main.py`: `category` and `confidence` carry
descriptions only — no `ge`/`le` range constraint on `confidence` and no
minimum length on `category`. -/
structure CategoryOutput where
  category : String
  confidence : Int

/-- `CategoryInput` of `main.py`. -/
structure CategoryInput where
  title : String
  description : String

/-- Outcome of one synchronous model call: either the provider/transport
raises (`failure`, carrying `str(e)` of the raised exception), or a reply
text arrives; `reply none` models text that is not valid JSON, so the
output parser raises. -/
inductive LlmOutcome where
  | failure (desc : String)
  | reply (text : Option Json)

/-- The exception a chain invocation can raise, as caught by the handler's
`except Exception as e`.  The `describe` function below is `str(e)`. -/
inductive PipelineError where
  | provider (desc : String)
  | invalidJson
  | validation

/-- `str(e)` for a pipeline exception.  For provider errors it is the
provider's own message; the other two are the messages of the langchain
parser exception and the pydantic validation error, whose exact texts come
from those external libraries and are opaque constants here. -/
def PipelineError.describe : PipelineError → String
  | .provider d => d
  | .invalidJson => "Invalid json output"
  | .validation => "Failed to parse output"

/-- Validation of a parsed reply against `CategoryOutput`
(`PydanticOutputParser(pydantic_object=CategoryOutput)`): an object with a
string `category` and a numeric `confidence`; extra members ignored.  No
range check on `confidence`, no non-emptiness check on `category`. -/
def parseCategoryOutput (j : Json) : Option CategoryOutput :=
  match j with
  | .obj ms =>
    match pyLookup "category" ms, pyLookup "confidence" ms with
    | some (.str c), some (.num n) => some ⟨c, n⟩
    | _, _ => none
  | _ => none

/-- A `List[str]` pydantic field: every element must be a string. -/
def allStrings : List Json → Option (List String)
  | [] => some []
  | .str s :: rest => (allStrings rest).map (fun l => s :: l)
  | _ => none

/-- Validation of one sentiment block against `SentimentDetail`:
`strength` must be a number with `0 ≤ strength ≤ 100` (the `ge=0, le=100`
field constraint) and `detectedEmotions` a list of strings. -/
def parseSentimentDetail (j : Json) : Option SentimentDetail :=
  match j with
  | .obj ms =>
    match pyLookup "strength" ms, pyLookup "detectedEmotions" ms with
    | some (.num n), some (.arr es) =>
      if 0 ≤ n ∧ n ≤ 100 then (allStrings es).map (fun l => ⟨n, l⟩) else none
    | _, _ => none
  | _ => none

/-- Validation of a parsed reply against `Sentiment`
(`PydanticOutputParser(pydantic_object=Sentiment)`). -/
def parseSentiment (j : Json) : Option Sentiment :=
  match j with
  | .obj ms =>
    match pyLookup "agitation" ms, pyLookup "neutral" ms, pyLookup "positive" ms with
    | some a, some b, some p => do
      let ad ← parseSentimentDetail a
      let bd ← parseSentimentDetail b
      let pd ← parseSentimentDetail p
      some ⟨ad, bd, pd⟩
    | _, _, _ => none
  | _ => none

/-- `NewEventOutput(**result)`: the parsed reply must be an object with
string `title` and `description`. -/
def parseNewEventOutput (j : Json) : Option NewEventOutput :=
  match j with
  | .obj ms =>
    match pyLookup "title" ms, pyLookup "description" ms with
    | some (.str t), some (.str d) => some ⟨t, d⟩
    | _, _ => none
  | _ => none

/-- `VerificationOutput(**result)`: the parsed reply must be an object
with the four string fields. -/
def parseVerificationOutput (j : Json) : Option VerificationOutput :=
  match j with
  | .obj ms =>
    match pyLookup "comparison" ms, pyLookup "correctness" ms,
          pyLookup "justification" ms, pyLookup "public_response" ms with
    | some (.str c), some (.str r), some (.str j2), some (.str p) =>
        some ⟨c, r, j2, p⟩
    | _, _, _, _ => none
  | _ => none

/-- A `prompt | llm | PydanticOutputParser(...)` chain: a provider failure
raises it, a non-JSON reply raises the parser's JSON error, a shape
mismatch raises the validation error. -/
def runPydanticChain {α : Type} (parse : Json → Option α) (o : LlmOutcome) :
    Except PipelineError α :=
  match o with
  | .failure d => .error (.provider d)
  | .reply none => .error .invalidJson
  | .reply (some j) =>
    match parse j with
    | some a => .ok a
    | none => .error .validation

/-- `category_chain = prompt_category | llm | category parser`. -/
def category_chain (o : LlmOutcome) : Except PipelineError CategoryOutput :=
  runPydanticChain parseCategoryOutput o

/-- `sentiment_chain = prompt_sentiment | llm | sentiment parser`. -/
def sentiment_chain (o : LlmOutcome) : Except PipelineError Sentiment :=
  runPydanticChain parseSentiment o

/-- A `prompt | llm | json_output_parser` chain (`JsonOutputParser`): the
reply is parsed as JSON but not validated against any shape. -/
def runJsonChain (o : LlmOutcome) : Except PipelineError Json :=
  match o with
  | .failure d => .error (.provider d)
  | .reply none => .error .invalidJson
  | .reply (some j) => .ok j

/-- The whole fallible part of the `create_new_event` handler body:
`new_event_chain.invoke(...)` followed by `NewEventOutput(**result)`. -/
def newEventPipeline (o : LlmOutcome) : Except PipelineError NewEventOutput := do
  let j ← runJsonChain o
  match parseNewEventOutput j with
  | some r => .ok r
  | none => .error .validation

/-- The whole fallible part of the `verify_event_information` handler
body: `verification_chain.invoke(...)` followed by
`VerificationOutput(**result)`. -/
def verificationPipeline (o : LlmOutcome) : Except PipelineError VerificationOutput := do
  let j ← runJsonChain o
  match parseVerificationOutput j with
  | some r => .ok r
  | none => .error .validation

/-- A handler's HTTP response: a 200 body, or the `HTTPException` FastAPI
turns into a response of the given status whose body carries `detail`. -/
inductive Response (α : Type) where
  | ok (body : α)
  | httpError (status : Nat) (detail : String)

/-- The `/categorize_event` handler of `main.py`. -/
def categorize_event (_category_input : CategoryInput) (o : LlmOutcome) :
    Response CategoryOutput :=
  match category_chain o with
  | .ok r => .ok r
  | .error e => .httpError 500 e.describe

/-- The `/analyze_sentiment` handler of `main.py`. -/
def analyze_sentiment (_sentiment_input : SentimentInput) (o : LlmOutcome) :
    Response Sentiment :=
  match sentiment_chain o with
  | .ok r => .ok r
  | .error e => .httpError 500 e.describe

/-- The `/create_new_event` handler of `main.py`. -/
def create_new_event_endpoint (_new_event_input : NewEventInput) (o : LlmOutcome) :
    Response NewEventOutput :=
  match newEventPipeline o with
  | .ok r => .ok r
  | .error e => .httpError 500 e.describe

/-- The `/verify_event_information` handler of `main.py`. -/
def verify_event_information_endpoint (_verification_input : VerificationInput)
    (o : LlmOutcome) : Response VerificationOutput :=
  match verificationPipeline o with
  | .ok r => .ok r
  | .error e => .httpError 500 e.describe

end Service

namespace Service

/-- One segment of a `ChatPromptTemplate`: literal text or a `\x7bname\x7d`
placeholder. -/
inductive Seg where
  | lit (s : String)
  | var (name : String)

/-- Template rendering: literal segments verbatim, placeholders replaced by
the value the invocation dict supplies for the name. -/
def formatSegs : List Seg → (String → String) → String
  | [], _ => ""
  | Seg.lit s :: rest, env => s ++ formatSegs rest env
  | Seg.var v :: rest, env => env v ++ formatSegs rest env

/-- Literal text of `prompt_verification` before the `event_info`
placeholder (doubled braces of the Python source already unescaped, as the
template renderer emits them). -/
def verifLit1 : String :=
  "\nYou are an expert in verifying information related to events. "
    ++ "You will be given information about an event and official information "
    ++ "from authorities. Your task is to:\n\n"
    ++ "1. Differentiate between the event information and the authority information.\n"
    ++ "2. Check if the authority information confirms, contradicts, or provides "
    ++ "additional context to the event information.\n"
    ++ "3. Determine the correctness of the event information based on the "
    ++ "authority information.\n"
    ++ "4. Provide a message in Polish language that suggests a public response "
    ++ "to the event information, including a summary of the event, a summary of "
    ++ "the authority information, and an assessment of the correctness of the "
    ++ "event information.\n\n"
    ++ "Here is the Event information:\n"

/-- Literal text of `prompt_verification` between the two placeholders. -/
def verifLit2 : String :=
  "\n\nHere is the Official information from authorities:\n"

/-- Literal text of `prompt_verification` after the `authority_info`
placeholder. -/
def verifLit3 : String :=
  "\n\nProvide your analysis in a JSON object with the following structure "
    ++ "in Polish language:\n\x7b\n"
    ++ "    \"comparison\": \"Detailed comparison of the event and authority information.\",\n"
    ++ "    \"correctness\": \"Assessment of the event information\x27s correctness "
    ++ "(e.g., \\\"Correct\\\", \\\"Incorrect\\\", \\\"Partially Correct\\\", "
    ++ "\\\"Cannot Determine\\\").\",\n"
    ++ "    \"justification\": \"Explanation for the correctness assessment, "
    ++ "referencing specific details from both sources.\",\n"
    ++ "    \"public_response\": \"Suggested public response to the event "
    ++ "information, including a summary of the event, a summary of the authority "
    ++ "information, and an assessment of the correctness of the event information.\"\n"
    ++ "\x7d\n\n"
    ++ "Strictly follow the JSON format. Do not include any extra text.\n"

/-- `prompt_verification` of `main.py` as a segment list. -/
def prompt_verification : List Seg :=
  [Seg.lit verifLit1, Seg.var "event_info", Seg.lit verifLit2,
   Seg.var "authority_info", Seg.lit verifLit3]

/-- The dict the `verify_event_information` handler passes to
`verification_chain.invoke`: `event_info` is PRE-SERIALIZED with
`json.dumps(..., ensure_ascii=False)`, `authority_info` is passed through
as plain text. -/
def verificationInvokeArgs (input : VerificationInput) : List (String × String) :=
  [("event_info", dumpsCompact (Json.obj input.event_info)),
   ("authority_info", input.authority_info)]

/-- Lookup in the invocation dict (placeholder names are unique). -/
def lookupStr (k : String) : List (String × String) → String
  | [] => ""
  | (k2, v) :: rest => if k2 = k then v else lookupStr k rest

/-- The prompt the verification chain sends to the model. -/
def verificationPrompt (input : VerificationInput) : String :=
  formatSegs prompt_verification (fun v => lookupStr v (verificationInvokeArgs input))

end Service


/-!
Helper lemmas shared by the claim theorems.
-/

/-- `Except` bind on a success. -/
theorem except_bind_ok {ε α β : Type} (a : α) (f : α → Except ε β) :
    (Except.ok a >>= f : Except ε β) = f a := rfl

/-- `Except` bind on an error. -/
theorem except_bind_error {ε α β : Type} (e : ε) (f : α → Except ε β) :
    ((Except.error e : Except ε α) >>= f) = Except.error e := rfl

/-- After `d[k] = v`, looking up `k` yields `v`. -/
theorem pyLookup_dictSet_self (ms : List (String × Json)) (k : String) (v : Json) :
    pyLookup k (dictSet ms k v) = some v := by
  induction ms with
  | nil => simp [dictSet, pyLookup]
  | cons p rest ih =>
    obtain ⟨k2, v2⟩ := p
    by_cases hp : k2 = k
    · simp [dictSet, hp, pyLookup]
    · simp [dictSet, hp, pyLookup, ih]

/-- After `d[k] = v`, looking up another key is unchanged. -/
theorem pyLookup_dictSet_ne (ms : List (String × Json)) (k k2 : String) (v : Json)
    (h : k2 ≠ k) : pyLookup k2 (dictSet ms k v) = pyLookup k2 ms := by
  induction ms with
  | nil => simp [dictSet, pyLookup, Ne.symm h]
  | cons p rest ih =>
    obtain ⟨k3, v3⟩ := p
    by_cases hp : k3 = k
    · subst hp
      simp [dictSet, pyLookup, Ne.symm h, h]
    · by_cases hq : k3 = k2
      · simp [dictSet, hp, pyLookup, hq, h]
      · simp [dictSet, hp, pyLookup, hq, ih]

/-- Merging the singleton dict `{"category": v}` is a single update. -/
theorem pyMergeObj_category (fields : List (String × Json)) (v : Json) :
    pyMergeObj fields [("category", v)] = dictSet fields "category" v := rfl

/-- `seek(0)`, `write(s)`, `truncate()` leave the file holding exactly `s`,
whatever (longer or shorter) content and position it had before. -/
theorem runFileOps_overwrite (c : String) (p : Nat) (s : String) :
    runFileOps (c, p) [FileOp.seekStart, FileOp.write s, FileOp.truncate] =
      (s, s.length) := by
  show (String.mk (((List.take 0 c.data) ++ s.data ++ c.data.drop (0 + s.length)).take
      (0 + s.length)), 0 + s.length) = (s, s.length)
  have hs : s.length = s.data.length := rfl
  simp only [List.take_zero, List.nil_append, Nat.zero_add, hs]
  rw [List.take_left]

/-- A success of `mkCategoryInput` implies the event was a dict. -/
theorem mkCategoryInput_ok_obj (ev : Json) (t d : String)
    (h : Batch.mkCategoryInput ev = .ok (t, d)) :
    ∃ fields, ev = Json.obj fields := by
  cases ev with
  | obj fields => exact ⟨fields, rfl⟩
  | null => simp [Batch.mkCategoryInput] at h
  | bool b => simp [Batch.mkCategoryInput] at h
  | num n => simp [Batch.mkCategoryInput] at h
  | str s => simp [Batch.mkCategoryInput] at h
  | arr es => simp [Batch.mkCategoryInput] at h

/-- A categorization success implies the event was a dict and the returned
`category_info` is the singleton `{"category": <string>}` — in particular
the confidence score was discarded. -/
theorem categorize_event_ok_some (ev : Json) (o : Batch.CallOutcome)
    (ms : List Batch.Msg) (inf : List (String × Json))
    (h : Batch.categorize_event ev o = .ok (ms, some inf)) :
    (∃ fields, ev = Json.obj fields) ∧ ∃ c, inf = [("category", Json.str c)] := by
  cases hm : Batch.mkCategoryInput ev with
  | error c =>
      simp only [Batch.categorize_event, hm, except_bind_error] at h
      exact Except.noConfusion h
  | ok td =>
      obtain ⟨t, d⟩ := td
      refine ⟨mkCategoryInput_ok_obj ev t d hm, ?_⟩
      simp only [Batch.categorize_event, hm, except_bind_ok] at h
      cases o with
      | transportError => simp at h
      | response st body =>
        by_cases hst : 200 ≤ st ∧ st ≤ 299
        · simp only [hst, if_true] at h
          cases body with
          | none => simp at h
          | some j =>
            cases hp : Batch.parseCategoryOutput j with
            | none => simp [hp] at h
            | some out =>
              simp only [hp] at h
              refine ⟨out.category, ?_⟩
              have := (Except.ok.inj h)
              have h2 := congrArg Prod.snd this
              simp at h2
              exact h2.symm
        · simp only [hst, if_false] at h
          simp at h

/-- An event carrying string `title` and `description` fields — the shape
the spec's data model requires of every event. -/
def wellFormedEvent (ev : Json) : Bool :=
  match ev with
  | .obj ms =>
    match pyLookup "title" ms, pyLookup "description" ms with
    | some (.str _), some (.str _) => true
    | _, _ => false
  | _ => false

/-- On a well-formed event the request construction on line 29 of
`categorize_data.py` cannot raise. -/
theorem mkCategoryInput_ok_of_wellFormed (ev : Json)
    (hw : wellFormedEvent ev = true) :
    ∃ t d, Batch.mkCategoryInput ev = .ok (t, d) := by
  cases ev with
  | obj ms =>
    cases ht : pyLookup "title" ms with
    | none => simp [wellFormedEvent, ht] at hw
    | some tv =>
      cases hd : pyLookup "description" ms with
      | none =>
        simp only [wellFormedEvent, ht, hd] at hw
        cases tv <;> simp at hw
      | some dv =>
        simp only [wellFormedEvent, ht, hd] at hw
        cases tv <;> cases dv <;> simp at hw
        case str.str t d =>
          exact ⟨t, d, by simp [Batch.mkCategoryInput, ht, hd]⟩
  | null => simp [wellFormedEvent] at hw
  | bool b => simp [wellFormedEvent] at hw
  | num n => simp [wellFormedEvent] at hw
  | str s => simp [wellFormedEvent] at hw
  | arr es => simp [wellFormedEvent] at hw

/-- On a well-formed event `categorize_event` returns normally for EVERY
call outcome: every failure is caught and reported as `None`. -/
theorem categorize_event_ok_of_wellFormed (ev : Json) (o : Batch.CallOutcome)
    (hw : wellFormedEvent ev = true) :
    ∃ r, Batch.categorize_event ev o = .ok r := by
  obtain ⟨t, d, hm⟩ := mkCategoryInput_ok_of_wellFormed ev hw
  cases o with
  | transportError =>
    exact ⟨([Batch.Msg.httpError t], none),
      by simp [Batch.categorize_event, hm, except_bind_ok]⟩
  | response st body =>
    by_cases hst : 200 ≤ st ∧ st ≤ 299
    · cases body with
      | none =>
        exact ⟨([Batch.Msg.unexpectedError t], none),
          by simp [Batch.categorize_event, hm, except_bind_ok, hst]⟩
      | some j =>
        cases hp : Batch.parseCategoryOutput j with
        | none =>
          exact ⟨([Batch.Msg.unexpectedError t], none),
            by simp [Batch.categorize_event, hm, except_bind_ok, hst, hp]⟩
        | some out =>
          exact ⟨([], some [("category", Json.str out.category)]),
            by simp [Batch.categorize_event, hm, except_bind_ok, hst, hp]⟩
    · exact ⟨([Batch.Msg.httpError t], none),
        by simp [Batch.categorize_event, hm, except_bind_ok, hst]⟩

/-- On a list of well-formed events the processing loop returns normally. -/
theorem processEvents_ok (outcomes : Nat → Batch.CallOutcome) :
    ∀ (evs : List Json), (∀ ev ∈ evs, wellFormedEvent ev = true) →
      ∀ j, ∃ msgs out, Batch.processEvents outcomes evs j = .ok (msgs, out) := by
  intro evs
  induction evs with
  | nil => exact fun _ j => ⟨[], [], rfl⟩
  | cons ev rest ih =>
    intro hw j
    obtain ⟨r, hr⟩ := categorize_event_ok_of_wellFormed ev (outcomes j)
      (hw ev (by simp))
    obtain ⟨ms, info⟩ := r
    obtain ⟨msgs, out, hrest⟩ := ih (fun e he => hw e (by simp [he])) (j + 1)
    exact ⟨ms ++ msgs, Batch.applyCategory ev info :: out,
      by simp [Batch.processEvents, hr, hrest, except_bind_ok]⟩

/-- Frame property of the processing loop: on a normal return the output
list pairs up with the input list index by index, each output event being
`applyCategory` of the input event and its categorization result. -/
theorem processEvents_spec (outcomes : Nat → Batch.CallOutcome) :
    ∀ (evs : List Json) (j : Nat) (msgs : List Batch.Msg) (out : List Json),
      Batch.processEvents outcomes evs j = .ok (msgs, out) →
      out.length = evs.length ∧
      ∀ i ini oi, evs.get? i = some ini → out.get? i = some oi →
        ∃ ms info, Batch.categorize_event ini (outcomes (j + i)) = .ok (ms, info) ∧
          oi = Batch.applyCategory ini info := by
  intro evs
  induction evs with
  | nil =>
    intro j msgs out h
    simp only [Batch.processEvents] at h
    obtain ⟨h1, h2⟩ := Prod.mk.injEq .. ▸ Except.ok.inj h
    subst h2
    exact ⟨rfl, fun i ini oi hi => by simp at hi⟩
  | cons ev rest ih =>
    intro j msgs out h
    cases hc : Batch.categorize_event ev (outcomes j) with
    | error c =>
      simp only [Batch.processEvents, hc, except_bind_error] at h
      exact Except.noConfusion h
    | ok r =>
      obtain ⟨ms, info⟩ := r
      cases hr : Batch.processEvents outcomes rest (j + 1) with
      | error c =>
        simp only [Batch.processEvents, hc, hr, except_bind_ok, except_bind_error] at h
        exact Except.noConfusion h
      | ok r2 =>
        obtain ⟨msR, outR⟩ := r2
        simp only [Batch.processEvents, hc, hr, except_bind_ok] at h
        obtain ⟨hmsgs, hout⟩ := Prod.mk.injEq .. ▸ Except.ok.inj h
        obtain ⟨hlen, hidx⟩ := ih (j + 1) msR outR hr
        subst hout
        constructor
        · simp [hlen]
        · intro i ini oi hi ho
          cases i with
          | zero =>
            simp only [List.get?] at hi ho
            obtain rfl := Option.some.inj hi
            obtain rfl := Option.some.inj ho
            exact ⟨ms, info, by simpa using hc, rfl⟩
          | succ n =>
            simp only [List.get?] at hi ho
            obtain ⟨ms2, info2, hc2, ho2⟩ := hidx n ini oi hi ho
            have heq : j + 1 + n = j + (n + 1) := by omega
            rw [heq] at hc2
            exact ⟨ms2, info2, hc2, ho2⟩

/-- `applyCategory` on a failed categorization is the identity. -/
theorem applyCategory_none (ev : Json) : Batch.applyCategory ev none = ev := by
  cases ev <;> rfl

/-- A run of `process_and_update_events` that returned normally and
performed exactly one write. -/
def completesWithOneWrite
    (r : Except Batch.Crash (List Batch.Msg × Option String × List FileOp)) : Bool :=
  match r with
  | .ok (_, _, ops) => (writesOf ops).length == 1
  | .error _ => false

/-!
Concrete fixtures used by counterexamples and witnesses.
-/

/-- A document whose single event is the empty object — no `title` key. -/
def emptyEventDoc : Json := Json.obj [("events", Json.arr [Json.obj []])]

/-- A `json.load` oracle parsing the file content to `emptyEventDoc`. -/
def loadEmptyEvent : String → Option Json := fun _ => some emptyEventDoc

/-- An outcome oracle in which every categorize call succeeds. -/
def okOutcome : Nat → Batch.CallOutcome :=
  fun _ => Batch.CallOutcome.response 200
    (some (Json.obj [("category", Json.str "Inne"), ("confidence", Json.num 1)]))

/-- An outcome oracle in which every categorize call fails with HTTP 503. -/
def failOutcome : Nat → Batch.CallOutcome :=
  fun _ => Batch.CallOutcome.response 503 none

/-- A well-formed event and a document containing exactly it. -/
def goodEvent : Json :=
  Json.obj [("title", Json.str "Mecz"), ("description", Json.str "Derby miasta")]

/-- A document whose single event is `goodEvent`. -/
def goodEventDoc : Json := Json.obj [("events", Json.arr [goodEvent])]

/-- A `json.load` oracle parsing the file content to `goodEventDoc`. -/
def loadGoodEvent : String → Option Json := fun _ => some goodEventDoc

/-- Claim C1 counterexample: on the document `\x7b"events": [\x7b\x7d]\x7d`
— one event record, the empty object — the categorization of that single
event fails (line 29 of `categorize_data.py` raises `KeyError('title')`
before the `try` block is entered), and this failure ABORTS the whole run:
`process_and_update_events` propagates the exception instead of returning,
the loop never continues, and no file write occurs — even though every
HTTP outcome is a success.  This refutes the claim's universal
quantification over input documents and event records. -/
theorem batch_titleless_event_aborts_run :
    Batch.process_and_update_events loadEmptyEvent okOutcome "data.json"
      (some "\x7b\"events\": [\x7b\x7d]\x7d") =
      .error (Batch.Crash.keyError "title") := rfl

/-- Claim C1 (corrected, amended form): provided every record in the
`events` sequence is an object carrying string `title` and `description`
fields (the shape the data model requires), a failure to categorize any
single event — transport error, non-2xx status, malformed or mismatched
body — never aborts the run: the loop continues and the final (single)
file write still occurs, for every outcome oracle. -/
theorem batch_item_failure_never_aborts (load : String → Option Json)
    (outcomes : Nat → Batch.CallOutcome) (fp raw : String) (doc : Json)
    (evs : List Json) (hl : load raw = some doc)
    (he : Batch.pyGetEvents doc = .ok evs)
    (hw : ∀ ev ∈ evs, wellFormedEvent ev = true) :
    completesWithOneWrite
      (Batch.process_and_update_events load outcomes fp (some raw)) = true := by
  obtain ⟨msgs, out, hp⟩ := processEvents_ok outcomes evs hw 0
  simp [Batch.process_and_update_events, hl, he, hp, except_bind_ok,
        completesWithOneWrite, writesOf]

/-- Witness for the amended C1: a one-event well-formed document, every
categorize call failing with HTTP 503 — the run still completes with one
write. -/
theorem batch_item_failure_never_aborts_witness :
    completesWithOneWrite (Batch.process_and_update_events loadGoodEvent
      failOutcome "data.json" (some "irrelevant")) = true :=
  batch_item_failure_never_aborts loadGoodEvent failOutcome "data.json"
    "irrelevant" goodEventDoc [goodEvent] rfl rfl (by decide)

/-- Claim C3 (confirmed): when the processing loop of a run returns, the
output `events` sequence has the same length (order is positional: index
`i` of the output comes from index `i` of the input), each output event
agrees with its input event on every field other than `category`, and
whenever categorization succeeded at `i` with category `c`, the output
event's `category` field is `c` (added or overwritten). -/
theorem batch_preserves_events_frame (outcomes : Nat → Batch.CallOutcome)
    (evs : List Json) (msgs : List Batch.Msg) (out : List Json)
    (h : Batch.processEvents outcomes evs 0 = .ok (msgs, out)) :
    out.length = evs.length ∧
    ∀ i ini oi, evs.get? i = some ini → out.get? i = some oi →
      ((∀ k, k ≠ "category" → jsonGet k oi = jsonGet k ini) ∧
       ∀ ms c, Batch.categorize_event ini (outcomes i) =
           .ok (ms, some [("category", Json.str c)]) →
         jsonGet "category" oi = some (Json.str c)) := by
  obtain ⟨hlen, hidx⟩ := processEvents_spec outcomes evs 0 msgs out h
  refine ⟨hlen, ?_⟩
  intro i ini oi hi ho
  obtain ⟨ms, info, hc, hoi⟩ := hidx i ini oi hi ho
  rw [Nat.zero_add] at hc
  cases info with
  | none =>
    subst hoi
    refine ⟨fun k _ => rfl, ?_⟩
    intro ms2 c hc2
    rw [hc] at hc2
    simp at hc2
  | some inf =>
    obtain ⟨⟨fields, hf⟩, c0, hinf⟩ :=
      categorize_event_ok_some ini (outcomes i) ms inf hc
    subst hf
    subst hinf
    subst hoi
    constructor
    · intro k hk
      show pyLookup k (pyMergeObj fields [("category", Json.str c0)]) = _
      rw [pyMergeObj_category, pyLookup_dictSet_ne _ _ _ _ hk]
      rfl
    · intro ms2 c hc2
      rw [hc] at hc2
      simp only [Except.ok.injEq, Prod.mk.injEq, Option.some.injEq,
        List.cons.injEq, Prod.mk.injEq, Json.str.injEq] at hc2
      obtain ⟨-, ⟨-, hcc⟩, -⟩ := hc2
      show pyLookup "category" (pyMergeObj fields [("category", Json.str c0)]) = _
      rw [pyMergeObj_category, pyLookup_dictSet_self, hcc]

/-- Witness for C3: a concrete one-event run with a successful
categorization, whose output event carries the returned category. -/
theorem batch_preserves_events_frame_witness :
    jsonGet "category"
      (Json.obj [("title", Json.str "Mecz"), ("description", Json.str "Derby miasta"),
                 ("category", Json.str "Inne")]) = some (Json.str "Inne") :=
  ((batch_preserves_events_frame okOutcome [goodEvent] []
      [Json.obj [("title", Json.str "Mecz"), ("description", Json.str "Derby miasta"),
                 ("category", Json.str "Inne")]] rfl).2
    0 goodEvent _ rfl rfl).2 [] "Inne" rfl

/-- Claim C4 (confirmed): (1) when categorization fails at index `i`
(`categorize_event` returned `None`), the output event at `i` is EXACTLY
the input event — no `category` key added; (2) any non-2xx response —
whatever its body — and (3) any 2xx response whose body is not valid JSON
are both treated the same way: a caught per-event failure that returns
`None` (and logs a line naming the event), never an abort. -/
theorem batch_failed_event_left_unmodified :
    (∀ (outcomes : Nat → Batch.CallOutcome) (evs : List Json) msgs out,
        Batch.processEvents outcomes evs 0 = .ok (msgs, out) →
        ∀ i ini oi ms, evs.get? i = some ini → out.get? i = some oi →
          Batch.categorize_event ini (outcomes i) = .ok (ms, none) → oi = ini)
    ∧ (∀ (ev : Json) (t d : String) (st : Nat) (body : Option Json),
        Batch.mkCategoryInput ev = .ok (t, d) → ¬(200 ≤ st ∧ st ≤ 299) →
        Batch.categorize_event ev (.response st body) =
          .ok ([Batch.Msg.httpError t], none))
    ∧ (∀ (ev : Json) (t d : String) (st : Nat),
        Batch.mkCategoryInput ev = .ok (t, d) → 200 ≤ st → st ≤ 299 →
        Batch.categorize_event ev (.response st none) =
          .ok ([Batch.Msg.unexpectedError t], none)) := by
  refine ⟨?_, ?_, ?_⟩
  · intro outcomes evs msgs out h i ini oi ms hi ho hfail
    obtain ⟨-, hidx⟩ := processEvents_spec outcomes evs 0 msgs out h
    obtain ⟨ms2, info, hc, hoi⟩ := hidx i ini oi hi ho
    rw [Nat.zero_add] at hc
    rw [hfail] at hc
    simp only [Except.ok.injEq, Prod.mk.injEq] at hc
    obtain ⟨-, hinfo⟩ := hc
    subst hinfo
    rw [hoi, applyCategory_none]
  · intro ev t d st body hm hst
    simp [Batch.categorize_event, hm, except_bind_ok, hst]
  · intro ev t d st hm h1 h2
    simp [Batch.categorize_event, hm, except_bind_ok, h1, h2]

/-- Witness for C4: a concrete run whose single categorize call answers
HTTP 503 leaves the event exactly as it was, and the two failure shapes
(503 with some body, 200 with a non-JSON body) both return `None`. -/
theorem batch_failed_event_left_unmodified_witness :
    goodEvent = goodEvent
    ∧ Batch.categorize_event goodEvent (.response 503 (some Json.null)) =
        .ok ([Batch.Msg.httpError "Mecz"], none)
    ∧ Batch.categorize_event goodEvent (.response 200 none) =
        .ok ([Batch.Msg.unexpectedError "Mecz"], none) :=
  ⟨batch_failed_event_left_unmodified.1 failOutcome [goodEvent] _ _ rfl 0
      goodEvent goodEvent [Batch.Msg.httpError "Mecz"] rfl rfl rfl,
   batch_failed_event_left_unmodified.2.1 goodEvent "Mecz" "Derby miasta" 503
      (some Json.null) rfl (by decide),
   batch_failed_event_left_unmodified.2.2 goodEvent "Mecz" "Derby miasta" 200
      rfl (by decide) (by decide)⟩

/-- Claim C5 (confirmed): (1) if the target file does not exist, `open`
raises `FileNotFoundError`, which is caught: the run reports "not found",
performs no file operation at all, and the (absent) file is untouched;
(2) if the file exists but its content is not valid JSON, `json.load`
raises `JSONDecodeError`, which is caught: the run reports "invalid JSON",
performs no file operation, and the content is left exactly as it was.
In both cases the abort happens before any write is reachable. -/
theorem batch_fatal_error_writes_nothing :
    (∀ (load : String → Option Json) (outcomes : Nat → Batch.CallOutcome)
        (fp : String),
        Batch.process_and_update_events load outcomes fp none =
          .ok ([Batch.Msg.fileNotFound fp], none, []))
    ∧ (∀ (load : String → Option Json) (outcomes : Nat → Batch.CallOutcome)
        (fp raw : String), load raw = none →
        Batch.process_and_update_events load outcomes fp (some raw) =
          .ok ([Batch.Msg.invalidJson fp], some raw, [])) := by
  refine ⟨fun load outcomes fp => rfl, ?_⟩
  intro load outcomes fp raw hl
  simp [Batch.process_and_update_events, hl]

/-- Witness for C5: a concrete run on a file holding text that parses to
nothing makes no write and keeps the content. -/
theorem batch_fatal_error_writes_nothing_witness :
    Batch.process_and_update_events (fun _ => none) okOutcome "data.json"
      (some "not json at all") =
      .ok ([Batch.Msg.invalidJson "data.json"], some "not json at all", []) :=
  batch_fatal_error_writes_nothing.2 (fun _ => none) okOutcome "data.json"
    "not json at all" rfl

/-- Claim C6 (confirmed): (1) every run that reaches the write step (the
file existed and parsed) performs on the handle exactly the trace
`seek(0)`, one single `write` of the 4-space-indented, non-ASCII-preserving
serialization of the document with its `events` field replaced by the
processed sequence, then `truncate()` — the write happens once, after all
events are processed, and the resulting file content is exactly that
serialization; (2) the `seek(0)`/`write`/`truncate` combination overwrites
from the start and truncates any leftover trailing characters of the
previous (possibly longer) content, whatever it was. -/
theorem batch_single_write_of_serialized_doc :
    (∀ (load : String → Option Json) (outcomes : Nat → Batch.CallOutcome)
        (fp raw : String) (doc : Json) msgs fs2 ops,
        load raw = some doc →
        Batch.process_and_update_events load outcomes fp (some raw) =
          .ok (msgs, fs2, ops) →
        ∃ evs updated,
          Batch.pyGetEvents doc = .ok evs ∧
          Batch.processEvents outcomes evs 0 = .ok (msgs, updated) ∧
          ops = [FileOp.seekStart,
                 FileOp.write (dumpVal (Batch.pySetEvents doc updated) 0),
                 FileOp.truncate] ∧
          writesOf ops = [dumpVal (Batch.pySetEvents doc updated) 0] ∧
          fs2 = some (dumpVal (Batch.pySetEvents doc updated) 0))
    ∧ (∀ (c : String) (p : Nat) (s : String),
        runFileOps (c, p) [FileOp.seekStart, FileOp.write s, FileOp.truncate] =
          (s, s.length)) := by
  refine ⟨?_, runFileOps_overwrite⟩
  intro load outcomes fp raw doc msgs fs2 ops hl hr
  simp only [Batch.process_and_update_events, hl] at hr
  cases hg : Batch.pyGetEvents doc with
  | error c =>
    rw [hg, except_bind_error] at hr
    exact Except.noConfusion hr
  | ok evs =>
    rw [hg, except_bind_ok] at hr
    cases hp : Batch.processEvents outcomes evs 0 with
    | error c =>
      rw [hp, except_bind_error] at hr
      exact Except.noConfusion hr
    | ok r =>
      obtain ⟨m2, updated⟩ := r
      rw [hp, except_bind_ok] at hr
      simp only [Except.ok.injEq, Prod.mk.injEq] at hr
      obtain ⟨hm, hf, ho⟩ := hr
      subst hm
      refine ⟨evs, updated, rfl, hp, ho.symm, ?_, ?_⟩
      · rw [← ho]
        rfl
      · rw [← hf]
        have := runFileOps_overwrite raw raw.length
          (dumpVal (Batch.pySetEvents doc updated) 0)
        rw [this]

/-- The processed event list of the witness run on `goodEventDoc`. -/
def goodUpdated : List Json :=
  [Json.obj [("title", Json.str "Mecz"), ("description", Json.str "Derby miasta"),
             ("category", Json.str "Inne")]]

/-- The serialized text the witness run writes. -/
def goodRunText : String := dumpVal (Batch.pySetEvents goodEventDoc goodUpdated) 0

/-- The file-operation trace of the witness run. -/
def goodRunOps : List FileOp :=
  [FileOp.seekStart, FileOp.write goodRunText, FileOp.truncate]

/-- Witness for C6: the concrete successful run on `goodEventDoc`, and a
concrete truncation: writing `"ab"` over `"0123456789"` from position 7
leaves exactly `"ab"`. -/
theorem batch_single_write_of_serialized_doc_witness :
    (∃ evs updated,
        Batch.pyGetEvents goodEventDoc = .ok evs ∧
        Batch.processEvents okOutcome evs 0 = .ok ([], updated) ∧
        goodRunOps = [FileOp.seekStart,
          FileOp.write (dumpVal (Batch.pySetEvents goodEventDoc updated) 0),
          FileOp.truncate] ∧
        writesOf goodRunOps = [dumpVal (Batch.pySetEvents goodEventDoc updated) 0] ∧
        (some ((runFileOps ("irrelevant", "irrelevant".length) goodRunOps).1) :
            Option String) =
          some (dumpVal (Batch.pySetEvents goodEventDoc updated) 0))
    ∧ runFileOps ("0123456789", 7) [FileOp.seekStart, FileOp.write "ab",
        FileOp.truncate] = ("ab", 2) :=
  ⟨batch_single_write_of_serialized_doc.1 loadGoodEvent okOutcome "data.json"
      "irrelevant" goodEventDoc []
      (some ((runFileOps ("irrelevant", "irrelevant".length) goodRunOps).1))
      goodRunOps rfl rfl,
   batch_single_write_of_serialized_doc.2 "0123456789" 7 "ab"⟩

/-- Claim C10 (confirmed): the success line of `main` —
`Successfully added 'category' field to data.json.` — is printed after
EVERY run in which `process_and_update_events` returns, because that
function catches its two fatal errors and returns normally: (1) when the
file does not exist, the output is the "not found" line FOLLOWED by the
success line, with no update performed; (2) when the content is not valid
JSON, the "invalid JSON" line followed by the success line, again with no
update; (3) in general, whenever `main` returns, its last printed line is
the success line naming the file. -/
theorem batch_success_message_printed_unconditionally :
    (∀ (load : String → Option Json) (outcomes : Nat → Batch.CallOutcome),
        Batch.main load outcomes none =
          .ok ([Batch.Msg.fileNotFound Batch.dataJsonPath,
                Batch.Msg.success Batch.dataJsonPath], none, []))
    ∧ (∀ (load : String → Option Json) (outcomes : Nat → Batch.CallOutcome)
        (raw : String), load raw = none →
        Batch.main load outcomes (some raw) =
          .ok ([Batch.Msg.invalidJson Batch.dataJsonPath,
                Batch.Msg.success Batch.dataJsonPath], some raw, []))
    ∧ (∀ (load : String → Option Json) (outcomes : Nat → Batch.CallOutcome)
        (fs : Option String) msgs fs2 ops,
        Batch.main load outcomes fs = .ok (msgs, fs2, ops) →
        msgs.getLast? = some (Batch.Msg.success Batch.dataJsonPath)) := by
  refine ⟨fun load outcomes => rfl, ?_, ?_⟩
  · intro load outcomes raw hl
    simp [Batch.main, Batch.process_and_update_events, hl]
  · intro load outcomes fs msgs fs2 ops h
    unfold Batch.main at h
    cases hp : Batch.process_and_update_events load outcomes Batch.dataJsonPath fs with
    | error c =>
      rw [hp] at h
      exact Except.noConfusion h
    | ok r =>
      obtain ⟨m, f, o⟩ := r
      rw [hp] at h
      simp only [Except.ok.injEq, Prod.mk.injEq] at h
      obtain ⟨hm, -, -⟩ := h
      subst hm
      rw [List.getLast?_append_cons]
      rfl

/-- Witness for C10: a run on invalid JSON content still ends by printing
the success line. -/
theorem batch_success_message_printed_unconditionally_witness :
    Batch.main (fun _ => none) okOutcome (some "broken \x7b") =
      .ok ([Batch.Msg.invalidJson Batch.dataJsonPath,
            Batch.Msg.success Batch.dataJsonPath], some "broken \x7b", []) :=
  batch_success_message_printed_unconditionally.2.1 (fun _ => none) okOutcome
    "broken \x7b" rfl

/-- The shape-mismatch-free reply used in the C2 counterexample: valid
JSON, a string `category` (the empty string) and a numeric `confidence`
(2, outside [0, 1]). -/
def badReply : Json :=
  Json.obj [("category", Json.str ""), ("confidence", Json.num 2)]

/-- Claim C2 counterexample: on a well-formed JSON model reply the
`categorize_event` endpoint happily returns `confidence = 2` (outside the
closed interval [0, 1]) and an EMPTY `category` string — `CategoryOutput`
declares no `ge`/`le` bound on `confidence` and no minimum length on
`category`, so pydantic validation checks only the field types.  This
refutes the claim that `confidence` always lies in [0, 1] and `category`
is non-empty. -/
theorem categorize_range_claim_counterexample :
    Service.categorize_event ⟨"Wypadek", "Kolizja dwóch aut"⟩
        (Service.LlmOutcome.reply (some badReply)) =
      Service.Response.ok ⟨"", 2⟩
    ∧ ¬((0 ≤ (2 : Int) ∧ (2 : Int) ≤ 1) ∧ ("" : String) ≠ "") :=
  ⟨rfl, by decide⟩

/-- Claim C2 (corrected, amended form): for every valid `CategoryInput`,
whenever the model reply is well-formed JSON with a string `category` and
a numeric `confidence`, the endpoint returns EXACTLY those two values,
unchanged: the output validation is a shape check only — no range check on
`confidence` and no non-emptiness check on `category` is performed. -/
theorem categorize_returns_reply_values_unchecked
    (input : Service.CategoryInput) (c : String) (n : Int) :
    Service.categorize_event input
        (Service.LlmOutcome.reply (some (Json.obj
          [("category", Json.str c), ("confidence", Json.num n)]))) =
      Service.Response.ok ⟨c, n⟩ := rfl

/-- Claim C7 (confirmed): for each of the four endpoints, every failure
arising after request validation — provider/network error, non-JSON
reply, or shape mismatch, i.e. every error its pipeline can produce — is
caught by the handler's `except Exception` clause and turned into
HTTP 500 whose body detail is exactly the error's string description
`str(e)`.  The handler consumes a single pipeline outcome: there is no
retry and no partial result. -/
theorem handler_failures_return_500 :
    (∀ (input : Service.CategoryInput) (o : Service.LlmOutcome)
        (e : Service.PipelineError), Service.category_chain o = .error e →
        Service.categorize_event input o = .httpError 500 e.describe)
    ∧ (∀ (input : Service.SentimentInput) (o : Service.LlmOutcome)
        (e : Service.PipelineError), Service.sentiment_chain o = .error e →
        Service.analyze_sentiment input o = .httpError 500 e.describe)
    ∧ (∀ (input : Service.NewEventInput) (o : Service.LlmOutcome)
        (e : Service.PipelineError), Service.newEventPipeline o = .error e →
        Service.create_new_event_endpoint input o = .httpError 500 e.describe)
    ∧ (∀ (input : Service.VerificationInput) (o : Service.LlmOutcome)
        (e : Service.PipelineError), Service.verificationPipeline o = .error e →
        Service.verify_event_information_endpoint input o =
          .httpError 500 e.describe) := by
  refine ⟨?_, ?_, ?_, ?_⟩
  · intro input o e h
    simp [Service.categorize_event, h]
  · intro input o e h
    simp [Service.analyze_sentiment, h]
  · intro input o e h
    simp [Service.create_new_event_endpoint, h]
  · intro input o e h
    simp [Service.verify_event_information_endpoint, h]

/-- Witness for C7: a provider failure with message `polaczenie zerwane`
surfaces as HTTP 500 carrying that very message, on all four endpoints. -/
theorem handler_failures_return_500_witness :
    Service.categorize_event ⟨"t", "d"⟩
        (Service.LlmOutcome.failure "polaczenie zerwane") =
      .httpError 500 "polaczenie zerwane"
    ∧ Service.analyze_sentiment ⟨"t", "d", "n"⟩
        (Service.LlmOutcome.failure "polaczenie zerwane") =
      .httpError 500 "polaczenie zerwane"
    ∧ Service.create_new_event_endpoint ⟨"n"⟩
        (Service.LlmOutcome.failure "polaczenie zerwane") =
      .httpError 500 "polaczenie zerwane"
    ∧ Service.verify_event_information_endpoint ⟨[], "a"⟩
        (Service.LlmOutcome.failure "polaczenie zerwane") =
      .httpError 500 "polaczenie zerwane" :=
  ⟨handler_failures_return_500.1 ⟨"t", "d"⟩ _ (.provider "polaczenie zerwane") rfl,
   handler_failures_return_500.2.1 ⟨"t", "d", "n"⟩ _ (.provider "polaczenie zerwane") rfl,
   handler_failures_return_500.2.2.1 ⟨"n"⟩ _ (.provider "polaczenie zerwane") rfl,
   handler_failures_return_500.2.2.2 ⟨[], "a"⟩ _ (.provider "polaczenie zerwane") rfl⟩

/-- `Option` bind hitting `some`, phrased for the monadic bind the
`do`-notation produces. -/
theorem option_bind_eq_some {α β : Type} (x : Option α) (f : α → Option β) (b : β) :
    (x >>= f = some b) ↔ ∃ a, x = some a ∧ f a = some b := by
  cases x <;> simp

/-- The `ge=0, le=100` field constraint: a reply block that validates as a
`SentimentDetail` has its `strength` in [0, 100]. -/
theorem parseSentimentDetail_bounds (j : Json) (d : Service.SentimentDetail)
    (h : Service.parseSentimentDetail j = some d) :
    0 ≤ d.strength ∧ d.strength ≤ 100 := by
  unfold Service.parseSentimentDetail at h
  split at h
  · split at h
    · rename_i ms n es heq
      split at h
      · rename_i hb
        rw [Option.map_eq_some'] at h
        obtain ⟨l, -, hd⟩ := h
        subst hd
        exact hb
      · exact absurd h (by simp)
    · exact absurd h (by simp)
  · exact absurd h (by simp)

/-- A reply that validates as a `Sentiment` has all three strengths in
[0, 100]. -/
theorem parseSentiment_bounds (j : Json) (s : Service.Sentiment)
    (h : Service.parseSentiment j = some s) :
    (0 ≤ s.agitation.strength ∧ s.agitation.strength ≤ 100) ∧
    (0 ≤ s.neutral.strength ∧ s.neutral.strength ≤ 100) ∧
    (0 ≤ s.positive.strength ∧ s.positive.strength ≤ 100) := by
  unfold Service.parseSentiment at h
  split at h
  · split at h
    · simp only [option_bind_eq_some] at h
      obtain ⟨ad, had, h⟩ := h
      obtain ⟨bd, hbd, h⟩ := h
      obtain ⟨pd, hpd, h⟩ := h
      obtain rfl := Option.some.inj h
      exact ⟨parseSentimentDetail_bounds _ ad had,
             parseSentimentDetail_bounds _ bd hbd,
             parseSentimentDetail_bounds _ pd hpd⟩
    · exact absurd h (by simp)
  · exact absurd h (by simp)

/-- Claim C8 (confirmed): whenever the `analyze_sentiment` endpoint
returns a success response, each of `agitation.strength`,
`neutral.strength` and `positive.strength` is in the closed interval
[0, 100] — the `Field(ge=0, le=100)` constraint of `SentimentDetail` is
enforced by the output validation for every success. -/
theorem sentiment_strengths_in_range (input : Service.SentimentInput)
    (o : Service.LlmOutcome) (s : Service.Sentiment)
    (h : Service.analyze_sentiment input o = Service.Response.ok s) :
    (0 ≤ s.agitation.strength ∧ s.agitation.strength ≤ 100) ∧
    (0 ≤ s.neutral.strength ∧ s.neutral.strength ≤ 100) ∧
    (0 ≤ s.positive.strength ∧ s.positive.strength ≤ 100) := by
  unfold Service.analyze_sentiment at h
  cases hc : Service.sentiment_chain o with
  | error e => rw [hc] at h; exact absurd h (by simp)
  | ok s2 =>
    rw [hc] at h
    simp only [Service.Response.ok.injEq] at h
    subst h
    unfold Service.sentiment_chain Service.runPydanticChain at hc
    split at hc
    · exact absurd hc (by simp)
    · exact absurd hc (by simp)
    · rename_i j
      split at hc
      · rename_i a ha
        obtain rfl := Except.ok.inj hc
        exact parseSentiment_bounds j _ ha
      · exact absurd hc (by simp)

/-- A concrete well-formed sentiment reply. -/
def sentReply : Json :=
  Json.obj
    [("agitation", Json.obj [("strength", Json.num 60),
        ("detectedEmotions", Json.arr [Json.str "gniew"])]),
     ("neutral", Json.obj [("strength", Json.num 30),
        ("detectedEmotions", Json.arr [])]),
     ("positive", Json.obj [("strength", Json.num 10),
        ("detectedEmotions", Json.arr [Json.str "nadzieja"])])]

/-- The validated result of `sentReply`. -/
def sentOut : Service.Sentiment :=
  ⟨⟨60, ["gniew"]⟩, ⟨30, []⟩, ⟨10, ["nadzieja"]⟩⟩

/-- Witness for C8: a concrete success response whose strengths are 60,
30 and 10, each in [0, 100]. -/
theorem sentiment_strengths_in_range_witness :
    (0 ≤ sentOut.agitation.strength ∧ sentOut.agitation.strength ≤ 100) ∧
    (0 ≤ sentOut.neutral.strength ∧ sentOut.neutral.strength ≤ 100) ∧
    (0 ≤ sentOut.positive.strength ∧ sentOut.positive.strength ≤ 100) :=
  sentiment_strengths_in_range ⟨"Protest", "Blokada ulic", "tweety"⟩
    (Service.LlmOutcome.reply (some sentReply)) sentOut rfl

/-- The `event_info` placeholder value is the compact serialization. -/
theorem lookupStr_event_info (input : Service.VerificationInput) :
    Service.lookupStr "event_info" (Service.verificationInvokeArgs input) =
      dumpsCompact (Json.obj input.event_info) := rfl

/-- The `authority_info` placeholder value is the plain input string. -/
theorem lookupStr_authority_info (input : Service.VerificationInput) :
    Service.lookupStr "authority_info" (Service.verificationInvokeArgs input) =
      input.authority_info := rfl

/-- Claim C9 (confirmed): (1) for every `VerificationInput` the rendered
verification prompt is the template's literal text with the
`json.dumps(..., ensure_ascii=False)` serialization of `event_info`
substituted at the first placeholder and `authority_info` substituted AS
PLAIN TEXT at the second; (2) the serialization preserves every non-ASCII
character literally (only `"`, `\` and control characters below 0x20 are
escaped). -/
theorem verification_prompt_serializes_event_info :
    (∀ (input : Service.VerificationInput),
        Service.verificationPrompt input =
          Service.verifLit1 ++ (dumpsCompact (Json.obj input.event_info) ++
            (Service.verifLit2 ++ (input.authority_info ++ Service.verifLit3))))
    ∧ (∀ c : Char, 128 ≤ c.toNat → escapeChar c = String.mk [c]) := by
  constructor
  · intro input
    simp [Service.verificationPrompt, Service.formatSegs,
      Service.prompt_verification, lookupStr_event_info, lookupStr_authority_info,
      String.append_empty, String.append_assoc]
  · intro c h
    have h1 : ¬(c = '"') := by rintro rfl; exact absurd h (by decide)
    have h2 : ¬(c = '\\') := by rintro rfl; exact absurd h (by decide)
    have h3 : ¬(c = '\n') := by rintro rfl; exact absurd h (by decide)
    have h4 : ¬(c = '\t') := by rintro rfl; exact absurd h (by decide)
    have h5 : ¬(c = '\r') := by rintro rfl; exact absurd h (by decide)
    have h6 : ¬(c.toNat = 8) := by omega
    have h7 : ¬(c.toNat = 12) := by omega
    have h8 : ¬(c.toNat < 32) := by omega
    simp [escapeChar, h1, h2, h3, h4, h5, h6, h7, h8]

/-- A concrete verification input with a non-ASCII character. -/
def verifInputCx : Service.VerificationInput :=
  ⟨[("tytul", Json.str "Pożar magazynu")], "Straż potwierdza zdarzenie"⟩

/-- Witness for C9: the rendered prompt on a concrete input, and literal
preservation of the non-ASCII character `ż` (code point 380). -/
theorem verification_prompt_serializes_event_info_witness :
    Service.verificationPrompt verifInputCx =
      Service.verifLit1 ++ (dumpsCompact (Json.obj verifInputCx.event_info) ++
        (Service.verifLit2 ++ (verifInputCx.authority_info ++ Service.verifLit3)))
    ∧ escapeChar (Char.ofNat 380) = String.mk [Char.ofNat 380] :=
  ⟨verification_prompt_serializes_event_info.1 verifInputCx,
   verification_prompt_serializes_event_info.2 (Char.ofNat 380) (by decide)⟩
